import Mathlib

/-
Verification of the constant/template registry of the RootManage-Module-Model
repository. The repository consists of four C header files that define
string and numeric constants and multi-line shell-script templates:

  src/pyrmm/usr/include/kernelsu-module.h
  src/pyrmm/usr/include/shell-utils.h
  src/pyrmm/usr/local/include/local-config.h
  src/pyrmm/usr/local/include/dev-utils.h

Each object-like #define of a literal is embedded below as a Lean constant
with the same name, in the same order, one namespace per header.  C escape
sequences are resolved to the resulting literal bytes: "\033" in a C string
literal becomes the ESC byte (written \x1b here), "\\033" becomes the two
bytes backslash-033 (written \\033 here).  The single-quoted color values of
shell-utils.h are C multi-character constants; following the design note of
the specification they are embedded as the byte sequence between the quotes
with the \033 escape resolved, ESC followed by the bracket sequence.
C octal integer literals (0755 etc.) are written with Lean's 0o notation,
and hexadecimal ones with 0x notation, preserving the numeric value.
Braces that occur inside shell text are written with the \x7b and \x7d
byte escapes.  Function-like macros (printing, memory and string helpers of
dev-utils.h) and the declared-but-unimplemented utility function prototypes
define no name-to-literal binding and are not part of the registry.

On top of the per-header binding lists, the registry operations described by
the specification (lookup, resolveTemplate, enumerate) are modelled, and the
testable properties of the specification are proved or refuted.
-/

set_option maxRecDepth 100000
set_option maxHeartbeats 1000000

/-- A value bound to a symbolic name: a string literal or a numeric literal. -/
inductive Value where
  | str (s : String)
  | num (n : Nat)
deriving DecidableEq, Repr

/-- The two error kinds of the registry interface. -/
inductive Err where
  | NotFoundError
  | TemplateError
deriving DecidableEq, Repr

deriving instance DecidableEq for Except

namespace KernelsuModule

-- KernelSU Environment Variables
def KSU_ENV_VAR : String := "KSU"

def KSU_VERSION_VAR : String := "KSU_VER"

def KSU_VERSION_CODE_VAR : String := "KSU_VER_CODE"

def KSU_KERNEL_VERSION_CODE_VAR : String := "KSU_KERNEL_VER_CODE"

-- Magisk Compatibility Variables
def MAGISK_VER_CODE_VAR : String := "MAGISK_VER_CODE"

def MAGISK_VER_VAR : String := "MAGISK_VER"

def MAGISK_COMPAT_VER_CODE : String := "25200"

def MAGISK_COMPAT_VER : String := "v25.2"

-- Module Paths
def MODULES_ROOT : String := "/data/adb/modules"

def KSU_BIN_PATH : String := "/data/adb/ksu/bin"

def BUSYBOX_PATH : String := "/data/adb/ksu/bin/busybox"

-- Module Files
def MODULE_PROP : String := "module.prop"

def SYSTEM_PROP : String := "system.prop"

def SEPOLICY_RULE : String := "sepolicy.rule"

-- Script Files
def POST_FS_DATA_SCRIPT : String := "post-fs-data.sh"

def POST_MOUNT_SCRIPT : String := "post-mount.sh"

def SERVICE_SCRIPT : String := "service.sh"

def BOOT_COMPLETED_SCRIPT : String := "boot-completed.sh"

def UNINSTALL_SCRIPT : String := "uninstall.sh"

def CUSTOMIZE_SCRIPT : String := "customize.sh"

-- Marker Files
def SKIP_MOUNT_MARKER : String := "skip_mount"

def DISABLE_MARKER : String := "disable"

def REMOVE_MARKER : String := "remove"

-- Directory Names
def SYSTEM_DIR : String := "system"

def VENDOR_DIR : String := "vendor"

def PRODUCT_DIR : String := "product"

def SYSTEM_EXT_DIR : String := "system_ext"

def WEBROOT_DIR : String := "webroot"

def META_INF_DIR : String := "META-INF"

-- Install Variables
def BOOTMODE_VAR : String := "BOOTMODE"

def MODPATH_VAR : String := "MODPATH"

def TMPDIR_VAR : String := "TMPDIR"

def ZIPFILE_VAR : String := "ZIPFILE"

def ARCH_VAR : String := "ARCH"

def IS64BIT_VAR : String := "IS64BIT"

def API_VAR : String := "API"

-- Architecture Types
def ARCH_ARM : String := "arm"

def ARCH_ARM64 : String := "arm64"

def ARCH_X86 : String := "x86"

def ARCH_X64 : String := "x64"

-- Module Property Keys
def PROP_ID : String := "id"

def PROP_NAME : String := "name"

def PROP_VERSION : String := "version"

def PROP_VERSION_CODE : String := "versionCode"

def PROP_AUTHOR : String := "author"

def PROP_DESCRIPTION : String := "description"

-- BusyBox Environment
def ASH_STANDALONE_VAR : String := "ASH_STANDALONE"

def ASH_STANDALONE_VALUE : String := "1"

-- Install Functions (for shell scripts)
def UI_PRINT_FUNC : String := "ui_print"

def ABORT_FUNC : String := "abort"

def SET_PERM_FUNC : String := "set_perm"

def SET_PERM_RECURSIVE_FUNC : String := "set_perm_recursive"

-- Default Permissions
def DEFAULT_DIR_PERM : String := "0755"

def DEFAULT_FILE_PERM : String := "0644"

def DEFAULT_EXEC_PERM : String := "0755"

def DEFAULT_CONTEXT : String := "u:object_r:system_file:s0"

-- Common Paths for System Overlay
def SYSTEM_BIN_PATH : String := "/system/bin"

def SYSTEM_LIB_PATH : String := "/system/lib"

def SYSTEM_LIB64_PATH : String := "/system/lib64"

def SYSTEM_ETC_PATH : String := "/system/etc"

def SYSTEM_APP_PATH : String := "/system/app"

def SYSTEM_PRIV_APP_PATH : String := "/system/priv-app"

-- WebUI Support
def WEBUI_INDEX : String := "index.html"

def WEBUI_PORT_DEFAULT : String := "8080"

-- Helper Macros
def MODDIR_VAR : String := "$\x7b0%/*\x7d"

def KSU_CHECK : String := "[ \"$KSU\" = \"true\" ]"

def MAGISK_CHECK : String := "[ \"$MAGISK_VER_CODE\" != \"\" ]"

end KernelsuModule

/-- Script Execution Modes (script_mode_t of kernelsu-module.h), a closed
enumeration. -/
inductive script_mode_t where
  | SCRIPT_MODE_POST_FS_DATA
  | SCRIPT_MODE_POST_MOUNT
  | SCRIPT_MODE_SERVICE
  | SCRIPT_MODE_BOOT_COMPLETED
deriving DecidableEq, Repr

/-- Module Types (module_type_t of kernelsu-module.h), a closed enumeration. -/
inductive module_type_t where
  | MODULE_TYPE_BASIC
  | MODULE_TYPE_SYSTEMLESS
  | MODULE_TYPE_WEBUI
  | MODULE_TYPE_SERVICE
deriving DecidableEq, Repr

namespace ShellUtils

-- Color Definitions for Terminal Output (C multi-character constants; the
-- bytes between the quotes with the \033 escape resolved to ESC = \x1b)
def COLOR_RED : String := "\x1b[0;31m"

def COLOR_GREEN : String := "\x1b[0;32m"

def COLOR_YELLOW : String := "\x1b[1;33m"

def COLOR_BLUE : String := "\x1b[0;34m"

def COLOR_PURPLE : String := "\x1b[0;35m"

def COLOR_CYAN : String := "\x1b[0;36m"

def COLOR_WHITE : String := "\x1b[1;37m"

def COLOR_NC : String := "\x1b[0m"

-- Logging Functions Template (the C adjacent string literals concatenated;
-- "\\033" in the C source is the two bytes backslash 033)
def LOG_FUNCTIONS : String :=
  "log_info() \x7b echo -e \"\\033[0;34m[INFO]\\033[0m $1\"; \x7d\n" ++
  "log_success() \x7b echo -e \"\\033[0;32m[SUCCESS]\\033[0m $1\"; \x7d\n" ++
  "log_warning() \x7b echo -e \"\\033[1;33m[WARNING]\\033[0m $1\"; \x7d\n" ++
  "log_error() \x7b echo -e \"\\033[0;31m[ERROR]\\033[0m $1\"; \x7d\n"

-- Common Shell Patterns
def MODDIR_DETECTION : String := "MODDIR=$\x7b0%/*\x7d"

def BUSYBOX_SETUP : String := "export PATH=\"/data/adb/ksu/bin:$PATH\""

def ASH_STANDALONE_SETUP : String := "export ASH_STANDALONE=1"

-- File Permission Helpers
def SET_EXEC_PERM : String := "chmod 755"

def SET_READ_PERM : String := "chmod 644"

def SET_DIR_PERM : String := "chmod 755"

-- Common Check Functions
def CHECK_ROOT : String :=
  "check_root() \x7b\n" ++
  "    if [ \"$(id -u)\" != \"0\" ]; then\n" ++
  "        log_error \"This script must be run as root\"\n" ++
  "        exit 1\n" ++
  "    fi\n" ++
  "\x7d\n"

def CHECK_KERNELSU : String :=
  "check_kernelsu() \x7b\n" ++
  "    if [ \"$KSU\" != \"true\" ]; then\n" ++
  "        log_error \"This script requires KernelSU\"\n" ++
  "        exit 1\n" ++
  "    fi\n" ++
  "\x7d\n"

def WAIT_FOR_BOOT : String :=
  "wait_for_boot() \x7b\n" ++
  "    while [ \"$(getprop sys.boot_completed)\" != \"1\" ]; do\n" ++
  "        sleep 1\n" ++
  "    done\n" ++
  "\x7d\n"

-- Property Manipulation
def RESET_PROP : String := "resetprop"

def GET_PROP : String := "getprop"

def SET_PROP_SAFE : String := "resetprop -n"

-- File System Operations
def MOUNT_RO : String := "mount -o remount,ro"

def MOUNT_RW : String := "mount -o remount,rw"

def CREATE_WHITEOUT : String := "mknod"

-- SELinux Helpers
def SELINUX_ENFORCING : String := "getenforce"

def SELINUX_PERMISSIVE : String := "setenforce 0"

def SELINUX_RESTORE : String := "restorecon"

-- Network Utilities
def CHECK_INTERNET : String :=
  "check_internet() \x7b\n" ++
  "    ping -c 1 8.8.8.8 >/dev/null 2>&1\n" ++
  "\x7d\n"

-- Package Manager Detection
def DETECT_PM : String :=
  "detect_pm() \x7b\n" ++
  "    if command -v pm >/dev/null 2>&1; then\n" ++
  "        echo \"pm\"\n" ++
  "    elif command -v cmd >/dev/null 2>&1; then\n" ++
  "        echo \"cmd package\"\n" ++
  "    else\n" ++
  "        echo \"unknown\"\n" ++
  "    fi\n" ++
  "\x7d\n"

-- Service Management
def START_SERVICE : String := "start"

def STOP_SERVICE : String := "stop"

def RESTART_SERVICE : String := "restart"

-- Archive Operations
def EXTRACT_ZIP : String := "unzip -o"

def EXTRACT_TAR : String := "tar -xf"

def CREATE_ZIP : String := "zip -r"

-- Download Utilities
def WGET_CMD : String := "wget -O"

def CURL_CMD : String := "curl -L -o"

-- Text Processing
def GREP_QUIET : String := "grep -q"

def SED_INPLACE : String := "sed -i"

-- the single-quote byte (0x27), used by the AWK_FIELD value
def singleQuote : String := (Char.ofNat 39).toString

def AWK_FIELD : String := "awk " ++ singleQuote ++ "\x7bprint $1\x7d" ++ singleQuote

end ShellUtils

namespace LocalConfig

-- Local development path configuration
def LOCAL_DEV_ROOT : String := "/usr/local/share/kernelsu-dev"

def LOCAL_TEMPLATES_DIR : String := "/usr/local/share/kernelsu-dev/templates"

def LOCAL_EXAMPLES_DIR : String := "/usr/local/share/kernelsu-dev/examples"

def LOCAL_DOCS_DIR : String := "/usr/local/share/kernelsu-dev/docs"

def LOCAL_TOOLS_DIR : String := "/usr/local/bin"

def LOCAL_CONFIG_DIR : String := "/usr/local/etc"

-- Local cache configuration
def LOCAL_CACHE_DIR : String := "$\x7bHOME\x7d/.cache/kernelsu-dev"

def LOCAL_TEMP_DIR : String := "/tmp/kernelsu-dev"

def LOCAL_LOG_DIR : String := "$\x7bHOME\x7d/.local/share/kernelsu-dev/logs"

-- Project configuration file names
def PROJECT_CONFIG_FILE : String := ".kernelsu-project"

def BUILD_CONFIG_FILE : String := "build.conf"

def MODULE_CONFIG_FILE : String := "module.prop"

def WEBUI_CONFIG_FILE : String := "webui.conf"

-- Development tools configuration
def EDITOR_CONFIG_FILE : String := ".editorconfig"

def VSCODE_CONFIG_DIR : String := ".vscode"

def GIT_CONFIG_FILE : String := ".gitignore"

def LINT_CONFIG_FILE : String := ".shellcheckrc"

-- Local environment variables
def ENV_KERNELSU_DEV_ROOT : String := "KERNELSU_DEV_ROOT"

def ENV_MODULE_DEV_MODE : String := "MODULE_DEV_MODE"

def ENV_DEBUG_ENABLED : String := "DEBUG_ENABLED"

def ENV_VERBOSE_OUTPUT : String := "VERBOSE_OUTPUT"

-- Development mode flags (C hexadecimal literals)
def DEV_MODE_STRICT : Nat := 0x01

def DEV_MODE_DEBUG : Nat := 0x02

def DEV_MODE_VERBOSE : Nat := 0x04

def DEV_MODE_LINT : Nat := 0x08

def DEV_MODE_TEST : Nat := 0x10

-- Local build configuration
def BUILD_TYPE_DEBUG : String := "debug"

def BUILD_TYPE_RELEASE : String := "release"

def BUILD_TYPE_TEST : String := "test"

def ARCH_ARM : String := "arm"

def ARCH_ARM64 : String := "arm64"

def ARCH_X86 : String := "x86"

def ARCH_X86_64 : String := "x86_64"

-- Default editor commands
def EDITOR_VSCODE : String := "code"

def EDITOR_VIM : String := "vim"

def EDITOR_NANO : String := "nano"

def EDITOR_EMACS : String := "emacs"

-- Local service configuration (decimal integer literals)
def WEBUI_DEFAULT_PORT : Nat := 8080

def WEBUI_DEFAULT_HOST : String := "localhost"

def API_DEFAULT_PORT : Nat := 8081

def DOCS_DEFAULT_PORT : Nat := 8082

-- File extensions
def EXT_MODULE : String := ".zip"

def EXT_SCRIPT : String := ".sh"

def EXT_CONFIG : String := ".conf"

def EXT_TEMPLATE : String := ".template"

def EXT_BACKUP : String := ".bak"

-- Permission configuration (C octal literals)
def PERM_EXECUTABLE : Nat := 0o755

def PERM_READABLE : Nat := 0o644

def PERM_CONFIG : Nat := 0o600

def PERM_DIRECTORY : Nat := 0o755

end LocalConfig

namespace DevUtils

-- Color output macros (terminal); C string literals, \033 resolves to ESC.
-- The function-like printing, memory, string, array, file and time macros of
-- dev-utils.h and its unimplemented function prototypes bind no symbolic
-- name to a literal value and so contribute nothing further to the registry.
def COLOR_RESET : String := "\x1b[0m"

def COLOR_RED : String := "\x1b[31m"

def COLOR_GREEN : String := "\x1b[32m"

def COLOR_YELLOW : String := "\x1b[33m"

def COLOR_BLUE : String := "\x1b[34m"

def COLOR_MAGENTA : String := "\x1b[35m"

def COLOR_CYAN : String := "\x1b[36m"

def COLOR_WHITE : String := "\x1b[37m"

end DevUtils

/-- The name-to-value bindings of kernelsu-module.h, in source order. -/
def kernelsuModuleBindings : List (String × Value) := [
  ("KSU_ENV_VAR", Value.str KernelsuModule.KSU_ENV_VAR),
  ("KSU_VERSION_VAR", Value.str KernelsuModule.KSU_VERSION_VAR),
  ("KSU_VERSION_CODE_VAR", Value.str KernelsuModule.KSU_VERSION_CODE_VAR),
  ("KSU_KERNEL_VERSION_CODE_VAR", Value.str KernelsuModule.KSU_KERNEL_VERSION_CODE_VAR),
  ("MAGISK_VER_CODE_VAR", Value.str KernelsuModule.MAGISK_VER_CODE_VAR),
  ("MAGISK_VER_VAR", Value.str KernelsuModule.MAGISK_VER_VAR),
  ("MAGISK_COMPAT_VER_CODE", Value.str KernelsuModule.MAGISK_COMPAT_VER_CODE),
  ("MAGISK_COMPAT_VER", Value.str KernelsuModule.MAGISK_COMPAT_VER),
  ("MODULES_ROOT", Value.str KernelsuModule.MODULES_ROOT),
  ("KSU_BIN_PATH", Value.str KernelsuModule.KSU_BIN_PATH),
  ("BUSYBOX_PATH", Value.str KernelsuModule.BUSYBOX_PATH),
  ("MODULE_PROP", Value.str KernelsuModule.MODULE_PROP),
  ("SYSTEM_PROP", Value.str KernelsuModule.SYSTEM_PROP),
  ("SEPOLICY_RULE", Value.str KernelsuModule.SEPOLICY_RULE),
  ("POST_FS_DATA_SCRIPT", Value.str KernelsuModule.POST_FS_DATA_SCRIPT),
  ("POST_MOUNT_SCRIPT", Value.str KernelsuModule.POST_MOUNT_SCRIPT),
  ("SERVICE_SCRIPT", Value.str KernelsuModule.SERVICE_SCRIPT),
  ("BOOT_COMPLETED_SCRIPT", Value.str KernelsuModule.BOOT_COMPLETED_SCRIPT),
  ("UNINSTALL_SCRIPT", Value.str KernelsuModule.UNINSTALL_SCRIPT),
  ("CUSTOMIZE_SCRIPT", Value.str KernelsuModule.CUSTOMIZE_SCRIPT),
  ("SKIP_MOUNT_MARKER", Value.str KernelsuModule.SKIP_MOUNT_MARKER),
  ("DISABLE_MARKER", Value.str KernelsuModule.DISABLE_MARKER),
  ("REMOVE_MARKER", Value.str KernelsuModule.REMOVE_MARKER),
  ("SYSTEM_DIR", Value.str KernelsuModule.SYSTEM_DIR),
  ("VENDOR_DIR", Value.str KernelsuModule.VENDOR_DIR),
  ("PRODUCT_DIR", Value.str KernelsuModule.PRODUCT_DIR),
  ("SYSTEM_EXT_DIR", Value.str KernelsuModule.SYSTEM_EXT_DIR),
  ("WEBROOT_DIR", Value.str KernelsuModule.WEBROOT_DIR),
  ("META_INF_DIR", Value.str KernelsuModule.META_INF_DIR),
  ("BOOTMODE_VAR", Value.str KernelsuModule.BOOTMODE_VAR),
  ("MODPATH_VAR", Value.str KernelsuModule.MODPATH_VAR),
  ("TMPDIR_VAR", Value.str KernelsuModule.TMPDIR_VAR),
  ("ZIPFILE_VAR", Value.str KernelsuModule.ZIPFILE_VAR),
  ("ARCH_VAR", Value.str KernelsuModule.ARCH_VAR),
  ("IS64BIT_VAR", Value.str KernelsuModule.IS64BIT_VAR),
  ("API_VAR", Value.str KernelsuModule.API_VAR),
  ("ARCH_ARM", Value.str KernelsuModule.ARCH_ARM),
  ("ARCH_ARM64", Value.str KernelsuModule.ARCH_ARM64),
  ("ARCH_X86", Value.str KernelsuModule.ARCH_X86),
  ("ARCH_X64", Value.str KernelsuModule.ARCH_X64),
  ("PROP_ID", Value.str KernelsuModule.PROP_ID),
  ("PROP_NAME", Value.str KernelsuModule.PROP_NAME),
  ("PROP_VERSION", Value.str KernelsuModule.PROP_VERSION),
  ("PROP_VERSION_CODE", Value.str KernelsuModule.PROP_VERSION_CODE),
  ("PROP_AUTHOR", Value.str KernelsuModule.PROP_AUTHOR),
  ("PROP_DESCRIPTION", Value.str KernelsuModule.PROP_DESCRIPTION),
  ("ASH_STANDALONE_VAR", Value.str KernelsuModule.ASH_STANDALONE_VAR),
  ("ASH_STANDALONE_VALUE", Value.str KernelsuModule.ASH_STANDALONE_VALUE),
  ("UI_PRINT_FUNC", Value.str KernelsuModule.UI_PRINT_FUNC),
  ("ABORT_FUNC", Value.str KernelsuModule.ABORT_FUNC),
  ("SET_PERM_FUNC", Value.str KernelsuModule.SET_PERM_FUNC),
  ("SET_PERM_RECURSIVE_FUNC", Value.str KernelsuModule.SET_PERM_RECURSIVE_FUNC),
  ("DEFAULT_DIR_PERM", Value.str KernelsuModule.DEFAULT_DIR_PERM),
  ("DEFAULT_FILE_PERM", Value.str KernelsuModule.DEFAULT_FILE_PERM),
  ("DEFAULT_EXEC_PERM", Value.str KernelsuModule.DEFAULT_EXEC_PERM),
  ("DEFAULT_CONTEXT", Value.str KernelsuModule.DEFAULT_CONTEXT),
  ("SYSTEM_BIN_PATH", Value.str KernelsuModule.SYSTEM_BIN_PATH),
  ("SYSTEM_LIB_PATH", Value.str KernelsuModule.SYSTEM_LIB_PATH),
  ("SYSTEM_LIB64_PATH", Value.str KernelsuModule.SYSTEM_LIB64_PATH),
  ("SYSTEM_ETC_PATH", Value.str KernelsuModule.SYSTEM_ETC_PATH),
  ("SYSTEM_APP_PATH", Value.str KernelsuModule.SYSTEM_APP_PATH),
  ("SYSTEM_PRIV_APP_PATH", Value.str KernelsuModule.SYSTEM_PRIV_APP_PATH),
  ("WEBUI_INDEX", Value.str KernelsuModule.WEBUI_INDEX),
  ("WEBUI_PORT_DEFAULT", Value.str KernelsuModule.WEBUI_PORT_DEFAULT),
  ("MODDIR_VAR", Value.str KernelsuModule.MODDIR_VAR),
  ("KSU_CHECK", Value.str KernelsuModule.KSU_CHECK),
  ("MAGISK_CHECK", Value.str KernelsuModule.MAGISK_CHECK)]

/-- The name-to-value bindings of shell-utils.h, in source order. -/
def shellUtilsBindings : List (String × Value) := [
  ("COLOR_RED", Value.str ShellUtils.COLOR_RED),
  ("COLOR_GREEN", Value.str ShellUtils.COLOR_GREEN),
  ("COLOR_YELLOW", Value.str ShellUtils.COLOR_YELLOW),
  ("COLOR_BLUE", Value.str ShellUtils.COLOR_BLUE),
  ("COLOR_PURPLE", Value.str ShellUtils.COLOR_PURPLE),
  ("COLOR_CYAN", Value.str ShellUtils.COLOR_CYAN),
  ("COLOR_WHITE", Value.str ShellUtils.COLOR_WHITE),
  ("COLOR_NC", Value.str ShellUtils.COLOR_NC),
  ("LOG_FUNCTIONS", Value.str ShellUtils.LOG_FUNCTIONS),
  ("MODDIR_DETECTION", Value.str ShellUtils.MODDIR_DETECTION),
  ("BUSYBOX_SETUP", Value.str ShellUtils.BUSYBOX_SETUP),
  ("ASH_STANDALONE_SETUP", Value.str ShellUtils.ASH_STANDALONE_SETUP),
  ("SET_EXEC_PERM", Value.str ShellUtils.SET_EXEC_PERM),
  ("SET_READ_PERM", Value.str ShellUtils.SET_READ_PERM),
  ("SET_DIR_PERM", Value.str ShellUtils.SET_DIR_PERM),
  ("CHECK_ROOT", Value.str ShellUtils.CHECK_ROOT),
  ("CHECK_KERNELSU", Value.str ShellUtils.CHECK_KERNELSU),
  ("WAIT_FOR_BOOT", Value.str ShellUtils.WAIT_FOR_BOOT),
  ("RESET_PROP", Value.str ShellUtils.RESET_PROP),
  ("GET_PROP", Value.str ShellUtils.GET_PROP),
  ("SET_PROP_SAFE", Value.str ShellUtils.SET_PROP_SAFE),
  ("MOUNT_RO", Value.str ShellUtils.MOUNT_RO),
  ("MOUNT_RW", Value.str ShellUtils.MOUNT_RW),
  ("CREATE_WHITEOUT", Value.str ShellUtils.CREATE_WHITEOUT),
  ("SELINUX_ENFORCING", Value.str ShellUtils.SELINUX_ENFORCING),
  ("SELINUX_PERMISSIVE", Value.str ShellUtils.SELINUX_PERMISSIVE),
  ("SELINUX_RESTORE", Value.str ShellUtils.SELINUX_RESTORE),
  ("CHECK_INTERNET", Value.str ShellUtils.CHECK_INTERNET),
  ("DETECT_PM", Value.str ShellUtils.DETECT_PM),
  ("START_SERVICE", Value.str ShellUtils.START_SERVICE),
  ("STOP_SERVICE", Value.str ShellUtils.STOP_SERVICE),
  ("RESTART_SERVICE", Value.str ShellUtils.RESTART_SERVICE),
  ("EXTRACT_ZIP", Value.str ShellUtils.EXTRACT_ZIP),
  ("EXTRACT_TAR", Value.str ShellUtils.EXTRACT_TAR),
  ("CREATE_ZIP", Value.str ShellUtils.CREATE_ZIP),
  ("WGET_CMD", Value.str ShellUtils.WGET_CMD),
  ("CURL_CMD", Value.str ShellUtils.CURL_CMD),
  ("GREP_QUIET", Value.str ShellUtils.GREP_QUIET),
  ("SED_INPLACE", Value.str ShellUtils.SED_INPLACE),
  ("AWK_FIELD", Value.str ShellUtils.AWK_FIELD)]

/-- The name-to-value bindings of local-config.h, in source order. -/
def localConfigBindings : List (String × Value) := [
  ("LOCAL_DEV_ROOT", Value.str LocalConfig.LOCAL_DEV_ROOT),
  ("LOCAL_TEMPLATES_DIR", Value.str LocalConfig.LOCAL_TEMPLATES_DIR),
  ("LOCAL_EXAMPLES_DIR", Value.str LocalConfig.LOCAL_EXAMPLES_DIR),
  ("LOCAL_DOCS_DIR", Value.str LocalConfig.LOCAL_DOCS_DIR),
  ("LOCAL_TOOLS_DIR", Value.str LocalConfig.LOCAL_TOOLS_DIR),
  ("LOCAL_CONFIG_DIR", Value.str LocalConfig.LOCAL_CONFIG_DIR),
  ("LOCAL_CACHE_DIR", Value.str LocalConfig.LOCAL_CACHE_DIR),
  ("LOCAL_TEMP_DIR", Value.str LocalConfig.LOCAL_TEMP_DIR),
  ("LOCAL_LOG_DIR", Value.str LocalConfig.LOCAL_LOG_DIR),
  ("PROJECT_CONFIG_FILE", Value.str LocalConfig.PROJECT_CONFIG_FILE),
  ("BUILD_CONFIG_FILE", Value.str LocalConfig.BUILD_CONFIG_FILE),
  ("MODULE_CONFIG_FILE", Value.str LocalConfig.MODULE_CONFIG_FILE),
  ("WEBUI_CONFIG_FILE", Value.str LocalConfig.WEBUI_CONFIG_FILE),
  ("EDITOR_CONFIG_FILE", Value.str LocalConfig.EDITOR_CONFIG_FILE),
  ("VSCODE_CONFIG_DIR", Value.str LocalConfig.VSCODE_CONFIG_DIR),
  ("GIT_CONFIG_FILE", Value.str LocalConfig.GIT_CONFIG_FILE),
  ("LINT_CONFIG_FILE", Value.str LocalConfig.LINT_CONFIG_FILE),
  ("ENV_KERNELSU_DEV_ROOT", Value.str LocalConfig.ENV_KERNELSU_DEV_ROOT),
  ("ENV_MODULE_DEV_MODE", Value.str LocalConfig.ENV_MODULE_DEV_MODE),
  ("ENV_DEBUG_ENABLED", Value.str LocalConfig.ENV_DEBUG_ENABLED),
  ("ENV_VERBOSE_OUTPUT", Value.str LocalConfig.ENV_VERBOSE_OUTPUT),
  ("DEV_MODE_STRICT", Value.num LocalConfig.DEV_MODE_STRICT),
  ("DEV_MODE_DEBUG", Value.num LocalConfig.DEV_MODE_DEBUG),
  ("DEV_MODE_VERBOSE", Value.num LocalConfig.DEV_MODE_VERBOSE),
  ("DEV_MODE_LINT", Value.num LocalConfig.DEV_MODE_LINT),
  ("DEV_MODE_TEST", Value.num LocalConfig.DEV_MODE_TEST),
  ("BUILD_TYPE_DEBUG", Value.str LocalConfig.BUILD_TYPE_DEBUG),
  ("BUILD_TYPE_RELEASE", Value.str LocalConfig.BUILD_TYPE_RELEASE),
  ("BUILD_TYPE_TEST", Value.str LocalConfig.BUILD_TYPE_TEST),
  ("ARCH_ARM", Value.str LocalConfig.ARCH_ARM),
  ("ARCH_ARM64", Value.str LocalConfig.ARCH_ARM64),
  ("ARCH_X86", Value.str LocalConfig.ARCH_X86),
  ("ARCH_X86_64", Value.str LocalConfig.ARCH_X86_64),
  ("EDITOR_VSCODE", Value.str LocalConfig.EDITOR_VSCODE),
  ("EDITOR_VIM", Value.str LocalConfig.EDITOR_VIM),
  ("EDITOR_NANO", Value.str LocalConfig.EDITOR_NANO),
  ("EDITOR_EMACS", Value.str LocalConfig.EDITOR_EMACS),
  ("WEBUI_DEFAULT_PORT", Value.num LocalConfig.WEBUI_DEFAULT_PORT),
  ("WEBUI_DEFAULT_HOST", Value.str LocalConfig.WEBUI_DEFAULT_HOST),
  ("API_DEFAULT_PORT", Value.num LocalConfig.API_DEFAULT_PORT),
  ("DOCS_DEFAULT_PORT", Value.num LocalConfig.DOCS_DEFAULT_PORT),
  ("EXT_MODULE", Value.str LocalConfig.EXT_MODULE),
  ("EXT_SCRIPT", Value.str LocalConfig.EXT_SCRIPT),
  ("EXT_CONFIG", Value.str LocalConfig.EXT_CONFIG),
  ("EXT_TEMPLATE", Value.str LocalConfig.EXT_TEMPLATE),
  ("EXT_BACKUP", Value.str LocalConfig.EXT_BACKUP),
  ("PERM_EXECUTABLE", Value.num LocalConfig.PERM_EXECUTABLE),
  ("PERM_READABLE", Value.num LocalConfig.PERM_READABLE),
  ("PERM_CONFIG", Value.num LocalConfig.PERM_CONFIG),
  ("PERM_DIRECTORY", Value.num LocalConfig.PERM_DIRECTORY)]

/-- The name-to-value bindings of dev-utils.h, in source order. -/
def devUtilsBindings : List (String × Value) := [
  ("COLOR_RESET", Value.str DevUtils.COLOR_RESET),
  ("COLOR_RED", Value.str DevUtils.COLOR_RED),
  ("COLOR_GREEN", Value.str DevUtils.COLOR_GREEN),
  ("COLOR_YELLOW", Value.str DevUtils.COLOR_YELLOW),
  ("COLOR_BLUE", Value.str DevUtils.COLOR_BLUE),
  ("COLOR_MAGENTA", Value.str DevUtils.COLOR_MAGENTA),
  ("COLOR_CYAN", Value.str DevUtils.COLOR_CYAN),
  ("COLOR_WHITE", Value.str DevUtils.COLOR_WHITE)]

/-- The whole corpus: the bindings of the four headers, usr/include before
usr/local/include, in source order within each header. -/
def registryBindings : List (String × Value) :=
  kernelsuModuleBindings ++ shellUtilsBindings ++ localConfigBindings ++ devUtilsBindings

/-- Lookup in a binding list: the first binding of the name wins, an unknown
name is a NotFoundError. -/
def lookupIn (bs : List (String × Value)) (name : String) : Except Err Value :=
  match bs.lookup name with
  | some v => Except.ok v
  | none => Except.error Err.NotFoundError

/-- Modelled from the spec: lookup(name) returns the literal bound to a known
symbolic name and fails with NotFoundError on an unknown one.  The source
realises this by compile-time macro substitution; the registry here is the
binding list of the whole corpus. -/
def lookup (name : String) : Except Err Value :=
  lookupIn registryBindings name

/-- The six multi-line shell-function templates of shell-utils.h, the
template table of the registry. -/
def shellTemplates : List (String × String) := [
  ("LOG_FUNCTIONS", ShellUtils.LOG_FUNCTIONS),
  ("CHECK_ROOT", ShellUtils.CHECK_ROOT),
  ("CHECK_KERNELSU", ShellUtils.CHECK_KERNELSU),
  ("WAIT_FOR_BOOT", ShellUtils.WAIT_FOR_BOOT),
  ("CHECK_INTERNET", ShellUtils.CHECK_INTERNET),
  ("DETECT_PM", ShellUtils.DETECT_PM)]

/-- Apply a substitution map to a template text, replacing each key by its
replacement in turn. -/
def substitute (subs : List (String × String)) (t : String) : String :=
  subs.foldl (fun acc p => acc.replace p.1 p.2) t

/-- Modelled from the spec: resolveTemplate(name, substitutions) expands a
named shell template, substituting embedded variable references, and fails
with NotFoundError on an unknown template name.  None of the templates of the
source embeds a substitution placeholder, so no substitution variable is ever
required and the TemplateError case of the specification is unreachable. -/
def resolveTemplate (name : String) (subs : List (String × String)) :
    Except Err String :=
  match shellTemplates.lookup name with
  | some t => Except.ok (substitute subs t)
  | none => Except.error Err.NotFoundError

/-- The bindings of the corpus whose names are in the given list, in corpus
order. -/
def groupOf (names : List String) : List (String × Value) :=
  registryBindings.filter (fun p => names.contains p.1)

/-- Names of the environment-variable group. -/
def envVarNames : List String := [
  "KSU_ENV_VAR", "KSU_VERSION_VAR", "KSU_VERSION_CODE_VAR",
  "KSU_KERNEL_VERSION_CODE_VAR", "MAGISK_VER_CODE_VAR", "MAGISK_VER_VAR",
  "BOOTMODE_VAR", "MODPATH_VAR", "TMPDIR_VAR", "ZIPFILE_VAR", "ARCH_VAR",
  "IS64BIT_VAR", "API_VAR", "ASH_STANDALONE_VAR", "ENV_KERNELSU_DEV_ROOT",
  "ENV_MODULE_DEV_MODE", "ENV_DEBUG_ENABLED", "ENV_VERBOSE_OUTPUT"]

/-- Names of the filesystem-path group. -/
def pathNames : List String := [
  "MODULES_ROOT", "KSU_BIN_PATH", "BUSYBOX_PATH", "SYSTEM_BIN_PATH",
  "SYSTEM_LIB_PATH", "SYSTEM_LIB64_PATH", "SYSTEM_ETC_PATH",
  "SYSTEM_APP_PATH", "SYSTEM_PRIV_APP_PATH", "LOCAL_DEV_ROOT",
  "LOCAL_TEMPLATES_DIR", "LOCAL_EXAMPLES_DIR", "LOCAL_DOCS_DIR",
  "LOCAL_TOOLS_DIR", "LOCAL_CONFIG_DIR", "LOCAL_CACHE_DIR",
  "LOCAL_TEMP_DIR", "LOCAL_LOG_DIR"]

/-- Names of the well-known-filename group. -/
def filenameNames : List String := [
  "MODULE_PROP", "SYSTEM_PROP", "SEPOLICY_RULE", "POST_FS_DATA_SCRIPT",
  "POST_MOUNT_SCRIPT", "SERVICE_SCRIPT", "BOOT_COMPLETED_SCRIPT",
  "UNINSTALL_SCRIPT", "CUSTOMIZE_SCRIPT", "SKIP_MOUNT_MARKER",
  "DISABLE_MARKER", "REMOVE_MARKER", "WEBUI_INDEX", "PROJECT_CONFIG_FILE",
  "BUILD_CONFIG_FILE", "MODULE_CONFIG_FILE", "WEBUI_CONFIG_FILE",
  "EDITOR_CONFIG_FILE", "GIT_CONFIG_FILE", "LINT_CONFIG_FILE"]

/-- Names of the module-property-key group. -/
def propKeyNames : List String := [
  "PROP_ID", "PROP_NAME", "PROP_VERSION", "PROP_VERSION_CODE",
  "PROP_AUTHOR", "PROP_DESCRIPTION"]

/-- Names of the permission-literal group: the permission strings of
kernelsu-module.h and the numeric modes of local-config.h. -/
def permissionNames : List String := [
  "DEFAULT_DIR_PERM", "DEFAULT_FILE_PERM", "DEFAULT_EXEC_PERM",
  "DEFAULT_CONTEXT", "PERM_EXECUTABLE", "PERM_READABLE", "PERM_CONFIG",
  "PERM_DIRECTORY"]

/-- Names of the shell-function-template group. -/
def templateNames : List String := [
  "LOG_FUNCTIONS", "CHECK_ROOT", "CHECK_KERNELSU", "WAIT_FOR_BOOT",
  "CHECK_INTERNET", "DETECT_PM"]

/-- Names of the color group; six of these are bound by both shell-utils.h
and dev-utils.h. -/
def colorNames : List String := [
  "COLOR_RED", "COLOR_GREEN", "COLOR_YELLOW", "COLOR_BLUE", "COLOR_PURPLE",
  "COLOR_CYAN", "COLOR_WHITE", "COLOR_NC", "COLOR_RESET", "COLOR_MAGENTA"]

/-- Names of the dev-mode-flag group. -/
def devModeFlagNames : List String := [
  "DEV_MODE_STRICT", "DEV_MODE_DEBUG", "DEV_MODE_VERBOSE", "DEV_MODE_LINT",
  "DEV_MODE_TEST"]

/-- Modelled from the spec: the named groups of the registry, by domain. -/
def groupDefs : List (String × List String) := [
  ("environment-variables", envVarNames),
  ("paths", pathNames),
  ("filenames", filenameNames),
  ("property-keys", propKeyNames),
  ("permissions", permissionNames),
  ("templates", templateNames),
  ("colors", colorNames),
  ("dev-mode-flags", devModeFlagNames)]

/-- Modelled from the spec: enumerate(group) returns all bindings of a named
group in a stable order (corpus order), failing with NotFoundError on an
unknown group name. -/
def enumerate (g : String) : Except Err (List (String × Value)) :=
  match groupDefs.lookup g with
  | some names => Except.ok (groupOf names)
  | none => Except.error Err.NotFoundError

/-- The registry as explicit state, for stating that the operations read it
without changing it. -/
structure RegistryState where
  bindings : List (String × Value)
  templates : List (String × String)
deriving DecidableEq, Repr

/-- The fully populated, read-only steady state of the registry. -/
def initRegistry : RegistryState :=
  { bindings := registryBindings, templates := shellTemplates }

/-- lookup as a state-passing operation: the result together with the
registry state it leaves behind. -/
def lookupOp (st : RegistryState) (name : String) :
    Except Err Value × RegistryState :=
  (lookupIn st.bindings name, st)

/-- resolveTemplate as a state-passing operation: the result together with
the registry state it leaves behind. -/
def resolveTemplateOp (st : RegistryState) (name : String)
    (subs : List (String × String)) : Except Err String × RegistryState :=
  (match st.templates.lookup name with
   | some t => Except.ok (substitute subs t)
   | none => Except.error Err.NotFoundError, st)

/-- Whether the character list p occurs as a contiguous run inside the
character list s. -/
def listContains (p : List Char) : List Char → Bool
  | [] => p.isEmpty
  | c :: rest => p.isPrefixOf (c :: rest) || listContains p rest

/-- Whether pat occurs as a substring of s. -/
def strContains (s pat : String) : Bool :=
  listContains pat.data s.data

/-- Whether suf is a suffix of s. -/
def strEndsWith (s suf : String) : Bool :=
  suf.data.isSuffixOf s.data

/-- The opening-brace character. -/
def lbrace : Char := Char.ofNat 123

/-- The closing-brace character. -/
def rbrace : Char := Char.ofNat 125

/-- Brace balance check: scanning with a depth counter, a closing brace never
occurs at depth zero and the final depth is zero. -/
def balAux : List Char → Nat → Bool
  | [], d => d == 0
  | c :: rest, d =>
    if c == lbrace then balAux rest (d + 1)
    else if c == rbrace then decide (0 < d) && balAux rest (d - 1)
    else balAux rest d

/-- Whether the braces of a string are balanced. -/
def bracesBalanced (s : String) : Bool :=
  balAux s.data 0

/-- The value of an octal digit character, if it is one. -/
def octDigitVal (c : Char) : Option Nat :=
  if 48 ≤ c.toNat ∧ c.toNat ≤ 55 then some (c.toNat - 48) else none

/-- Accumulating octal evaluation of a digit list. -/
def parseOctalAux : List Char → Nat → Option Nat
  | [], acc => some acc
  | c :: rest, acc =>
    match octDigitVal c with
    | some d => parseOctalAux rest (8 * acc + d)
    | none => none

/-- Read a string as an octal numeral; none on the empty string or on a
non-octal-digit character. -/
def parseOctal (s : String) : Option Nat :=
  if s.data.isEmpty then none else parseOctalAux s.data 0

/-- If a name is bound in a list and all its bindings there agree on one
value, first-match lookup returns that value. -/
theorem lookup_of_consistent (l : List (String × Value)) (n : String)
    (v : Value) (hmem : (n, v) ∈ l)
    (huniq : ∀ p ∈ l, p.1 = n → p.2 = v) :
    l.lookup n = some v := by
  induction l with
  | nil => cases hmem
  | cons p t ih =>
    rcases p with ⟨k, w⟩
    by_cases hk : n = k
    · subst hk
      have hw : w = v := huniq (n, w) (List.mem_cons_self _ _) rfl
      subst hw
      simp [List.lookup_cons]
    · have hne : (n == k) = false := beq_false_of_ne hk
      have hmem' : (n, v) ∈ t := by
        rcases List.mem_cons.mp hmem with h | h
        · exact absurd (congrArg Prod.fst h) hk
        · exact h
      have huniq' : ∀ p ∈ t, p.1 = n → p.2 = v :=
        fun p hp hpn => huniq p (List.mem_cons_of_mem _ hp) hpn
      simpa [List.lookup_cons, hne] using ih hmem' huniq'

/-- A successful first-match lookup result is one of the bindings. -/
theorem mem_of_lookup_some (l : List (String × Value)) (n : String)
    (v : Value) (h : l.lookup n = some v) : (n, v) ∈ l := by
  induction l with
  | nil => simp [List.lookup] at h
  | cons p t ih =>
    rcases p with ⟨k, w⟩
    by_cases hk : (n == k) = true
    · have hkn : n = k := eq_of_beq hk
      rw [List.lookup_cons] at h
      simp [hk] at h
      subst hkn
      subst h
      exact List.mem_cons_self _ _
    · have hne : (n == k) = false := by
        cases hb : (n == k) with
        | true => exact absurd hb hk
        | false => rfl
      rw [List.lookup_cons] at h
      simp [hne] at h
      exact List.mem_cons_of_mem _ (ih h)

/-- A name that occurs among the keys of a list has a successful first-match
lookup. -/
theorem exists_lookup_of_mem_keys (l : List (String × Value)) (n : String)
    (h : n ∈ l.map Prod.fst) : ∃ v, l.lookup n = some v := by
  induction l with
  | nil => simp at h
  | cons p t ih =>
    rcases p with ⟨k, w⟩
    by_cases hk : (n == k) = true
    · exact ⟨w, by simp [List.lookup_cons, hk]⟩
    · have hne : (n == k) = false := by
        cases hb : (n == k) with
        | true => exact absurd hb hk
        | false => rfl
      have hkn : n ≠ k := fun he => by simp [he] at hne
      have h' : n ∈ t.map Prod.fst := by
        rcases List.mem_map.mp h with ⟨q, hq, hqn⟩
        rcases List.mem_cons.mp hq with rfl | hqt
        · exact absurd hqn.symm hkn
        · exact List.mem_map.mpr ⟨q, hqt, hqn⟩
      rcases ih h' with ⟨v, hv⟩
      exact ⟨v, by simp [List.lookup_cons, hne, hv]⟩

/-- First-match lookup fails exactly on the names that are not keys. -/
theorem lookup_none_iff (l : List (String × Value)) (n : String) :
    l.lookup n = none ↔ n ∉ l.map Prod.fst := by
  constructor
  · intro h hmem
    rcases exists_lookup_of_mem_keys l n hmem with ⟨v, hv⟩
    rw [h] at hv
    cases hv
  · intro h
    cases hl : l.lookup n with
    | none => rfl
    | some v =>
      exact absurd (List.mem_map.mpr ⟨(n, v), mem_of_lookup_some l n v hl, rfl⟩) h

/-- C1, counterexample: the claim that lookup returns the documented literal
of every defined key byte-for-byte fails, because COLOR_GREEN is documented
in dev-utils.h with the bytes ESC[32m while lookup returns the shell-utils.h
bytes ESC[0;32m. -/
theorem c1_counterexample :
    ("COLOR_GREEN", Value.str DevUtils.COLOR_GREEN) ∈ registryBindings ∧
    lookup ("COLOR_GREEN") ≠ Except.ok (Value.str DevUtils.COLOR_GREEN) := by
  decide

/-- C1, amended: lookup returns the three documented path literals exactly,
and for every defined key all of whose definition sites agree on one value,
lookup returns that value byte-for-byte. -/
theorem c1_lookup_documented :
    lookup ("MODULES_ROOT") = Except.ok (Value.str ("/data/adb/modules")) ∧
    lookup ("KSU_BIN_PATH") = Except.ok (Value.str ("/data/adb/ksu/bin")) ∧
    lookup ("BUSYBOX_PATH") =
      Except.ok (Value.str ("/data/adb/ksu/bin/busybox")) ∧
    ∀ n v, (n, v) ∈ registryBindings →
      (∀ p ∈ registryBindings, p.1 = n → p.2 = v) →
      lookup n = Except.ok v := by
  refine ⟨by decide, by decide, by decide, ?_⟩
  intro n v hmem huniq
  unfold lookup lookupIn
  rw [lookup_of_consistent registryBindings n v hmem huniq]

/-- C1, witness: the amended theorem applied to the consistently bound key
MODULE_PROP. -/
theorem c1_witness :
    lookup ("MODULE_PROP") = Except.ok (Value.str ("module.prop")) :=
  c1_lookup_documented.2.2.2 ("MODULE_PROP") (Value.str ("module.prop"))
    (by decide) (by decide)

/-- C2, counterexample: the name COLOR_RED is bound twice in the corpus, by
shell-utils.h and by dev-utils.h, with two different values, so the registry
namespace of the corpus is not collision-free. -/
theorem c2_counterexample :
    ("COLOR_RED", Value.str ShellUtils.COLOR_RED) ∈ registryBindings ∧
    ("COLOR_RED", Value.str DevUtils.COLOR_RED) ∈ registryBindings ∧
    Value.str ShellUtils.COLOR_RED ≠ Value.str DevUtils.COLOR_RED := by
  decide

/-- C2, amended: within each of the four header files every symbolic name is
bound exactly once; uniqueness across the whole corpus fails only for names
bound by two different headers. -/
theorem c2_per_header_no_redefinition :
    (kernelsuModuleBindings.map Prod.fst).Nodup ∧
    (shellUtilsBindings.map Prod.fst).Nodup ∧
    (localConfigBindings.map Prod.fst).Nodup ∧
    (devUtilsBindings.map Prod.fst).Nodup := by
  decide

/-- C3: lookup fails, and fails with NotFoundError, exactly on the names
that are not defined symbolic keys; every defined key succeeds with a value
bound to it in the corpus. -/
theorem c3_lookup_error_iff (name : String) :
    (lookup name = Except.error Err.NotFoundError ↔
      name ∉ registryBindings.map Prod.fst) ∧
    (name ∈ registryBindings.map Prod.fst →
      ∃ v, (name, v) ∈ registryBindings ∧ lookup name = Except.ok v) := by
  constructor
  · constructor
    · intro h
      rw [← lookup_none_iff]
      cases hl : registryBindings.lookup name with
      | none => rfl
      | some v =>
        unfold lookup lookupIn at h
        rw [hl] at h
        cases h
    · intro h
      have hn := (lookup_none_iff registryBindings name).mpr h
      unfold lookup lookupIn
      rw [hn]
  · intro h
    rcases exists_lookup_of_mem_keys registryBindings name h with ⟨v, hv⟩
    refine ⟨v, mem_of_lookup_some _ _ _ hv, ?_⟩
    unfold lookup lookupIn
    rw [hv]

/-- C3, witness: the undefined name of the specification example indeed
fails with NotFoundError. -/
theorem c3_witness :
    lookup ("does-not-exist") = Except.error Err.NotFoundError :=
  (c3_lookup_error_iff ("does-not-exist")).1.mpr (by decide)

/-- C4: resolving the CHECK_ROOT template with no substitutions succeeds
with the shell text of the source, which contains the documented root-check
line, has balanced braces, and ends with the closing brace of the function
body. -/
theorem c4_check_root_template :
    resolveTemplate ("CHECK_ROOT") [] = Except.ok ShellUtils.CHECK_ROOT ∧
    strContains ShellUtils.CHECK_ROOT
      ("if [ \"$(id -u)\" != \"0\" ]; then") = true ∧
    bracesBalanced ShellUtils.CHECK_ROOT = true ∧
    strEndsWith ShellUtils.CHECK_ROOT ("\x7d\n") = true := by
  decide

/-- C5: the five dev-mode flag values are the five distinct single bits
2^0 .. 2^4, and the bitwise AND of every pair of distinct flags is zero. -/
theorem c5_dev_mode_flags_single_bits :
    (LocalConfig.DEV_MODE_STRICT = 2 ^ 0 ∧
     LocalConfig.DEV_MODE_DEBUG = 2 ^ 1 ∧
     LocalConfig.DEV_MODE_VERBOSE = 2 ^ 2 ∧
     LocalConfig.DEV_MODE_LINT = 2 ^ 3 ∧
     LocalConfig.DEV_MODE_TEST = 2 ^ 4) ∧
    (LocalConfig.DEV_MODE_STRICT &&& LocalConfig.DEV_MODE_DEBUG = 0 ∧
     LocalConfig.DEV_MODE_STRICT &&& LocalConfig.DEV_MODE_VERBOSE = 0 ∧
     LocalConfig.DEV_MODE_STRICT &&& LocalConfig.DEV_MODE_LINT = 0 ∧
     LocalConfig.DEV_MODE_STRICT &&& LocalConfig.DEV_MODE_TEST = 0 ∧
     LocalConfig.DEV_MODE_DEBUG &&& LocalConfig.DEV_MODE_VERBOSE = 0 ∧
     LocalConfig.DEV_MODE_DEBUG &&& LocalConfig.DEV_MODE_LINT = 0 ∧
     LocalConfig.DEV_MODE_DEBUG &&& LocalConfig.DEV_MODE_TEST = 0 ∧
     LocalConfig.DEV_MODE_VERBOSE &&& LocalConfig.DEV_MODE_LINT = 0 ∧
     LocalConfig.DEV_MODE_VERBOSE &&& LocalConfig.DEV_MODE_TEST = 0 ∧
     LocalConfig.DEV_MODE_LINT &&& LocalConfig.DEV_MODE_TEST = 0) := by
  decide

/-- C6, counterexample: the enumerate-then-lookup round trip fails on the
colors group, whose entry for COLOR_RED coming from dev-utils.h carries a
value that lookup, returning the shell-utils.h binding, does not reproduce. -/
theorem c6_counterexample :
    enumerate ("colors") = Except.ok (groupOf colorNames) ∧
    ("COLOR_RED", Value.str DevUtils.COLOR_RED) ∈ groupOf colorNames ∧
    lookup ("COLOR_RED") ≠ Except.ok (Value.str DevUtils.COLOR_RED) := by
  decide

/-- C6, amended: the round trip between enumerate and lookup holds for every
enumerated pair whose name is consistently bound in the corpus: whenever all
registry bindings of the name carry the enumerated value, lookup returns
exactly that value. -/
theorem c6_roundtrip_amended (g : String) (ps : List (String × Value))
    (n : String) (v : Value) (hg : enumerate g = Except.ok ps)
    (hmem : (n, v) ∈ ps)
    (huniq : ∀ p ∈ registryBindings, p.1 = n → p.2 = v) :
    lookup n = Except.ok v := by
  revert hg
  unfold enumerate
  cases hl : groupDefs.lookup g with
  | none => intro hg; cases hg
  | some names =>
    intro hg
    have hps : groupOf names = ps := by injection hg
    subst hps
    have hreg : (n, v) ∈ registryBindings := List.mem_of_mem_filter hmem
    unfold lookup lookupIn
    rw [lookup_of_consistent registryBindings n v hreg huniq]

/-- C6, witness: the amended round trip applied to the PERM_CONFIG entry of
the permissions group. -/
theorem c6_witness : lookup ("PERM_CONFIG") = Except.ok (Value.num 384) :=
  c6_roundtrip_amended ("permissions") (groupOf permissionNames)
    ("PERM_CONFIG") (Value.num 384) (by decide) (by decide) (by decide)

/-- C7: lookup and resolveTemplate are deterministic pure reads: each
operation leaves the registry state exactly as it found it, and repeating an
operation on the state left behind by the first call returns the identical
result. -/
theorem c7_operations_pure (st : RegistryState) (name : String)
    (subs : List (String × String)) :
    (lookupOp st name).2 = st ∧
    (resolveTemplateOp st name subs).2 = st ∧
    (lookupOp ((lookupOp st name).2) name).1 = (lookupOp st name).1 ∧
    (resolveTemplateOp ((resolveTemplateOp st name subs).2) name subs).1 =
      (resolveTemplateOp st name subs).1 :=
  ⟨rfl, rfl, rfl, rfl⟩

/-- C8: enumerating the permissions group yields a non-empty sequence of
bindings that are pairwise distinct by name. -/
theorem c8_permissions_enumeration :
    enumerate ("permissions") = Except.ok (groupOf permissionNames) ∧
    groupOf permissionNames ≠ [] ∧
    ((groupOf permissionNames).map Prod.fst).Nodup := by
  decide

/-- C9: the numeric permission modes of local-config.h agree with the
permission strings of kernelsu-module.h read as octal numerals:
PERM_EXECUTABLE and PERM_DIRECTORY are 493 (octal 755) matching
DEFAULT_DIR_PERM, and PERM_READABLE is 420 (octal 644) matching
DEFAULT_FILE_PERM. -/
theorem c9_numeric_string_perms_agree :
    LocalConfig.PERM_EXECUTABLE = 493 ∧
    LocalConfig.PERM_DIRECTORY = 493 ∧
    LocalConfig.PERM_READABLE = 420 ∧
    parseOctal KernelsuModule.DEFAULT_DIR_PERM =
      some LocalConfig.PERM_EXECUTABLE ∧
    parseOctal KernelsuModule.DEFAULT_DIR_PERM =
      some LocalConfig.PERM_DIRECTORY ∧
    parseOctal KernelsuModule.DEFAULT_FILE_PERM =
      some LocalConfig.PERM_READABLE := by
  decide

/-- C10: MODULE_PROP of kernelsu-module.h and MODULE_CONFIG_FILE of
local-config.h are both exactly the string module.prop. -/
theorem c10_module_prop_names_agree :
    KernelsuModule.MODULE_PROP = ("module.prop") ∧
    LocalConfig.MODULE_CONFIG_FILE = ("module.prop") ∧
    KernelsuModule.MODULE_PROP = LocalConfig.MODULE_CONFIG_FILE := by
  decide
